import Mathlib

/-!
Shallow embedding of `decision_engine.py`, a deterministic risk-scoring
engine for payment transactions, together with proofs of the specified
properties.  Python integers are modelled by `Int`, Python floats by `ℚ`
(the engine only ever compares amounts and formats them; no rounding
arithmetic occurs), Python dicts by association lists, and the loosely
typed row values by the inductive type `PyVal`.
-/

namespace DecisionEngine

/-- A loosely typed value as it arrives at the evaluation boundary
(absence of a field is modelled by `Option PyVal` in `RawRow`). -/
inductive PyVal where
  | vNone : PyVal
  | vStr (s : String) : PyVal
  | vInt (n : Int) : PyVal
  | vFloat (q : ℚ) : PyVal
deriving DecidableEq

/-- Numeric value of a list of decimal digit characters (most significant
first). -/
def digitsNatVal (ds : List Char) : Nat :=
  ds.foldl (fun acc c => acc * 10 + (c.toNat - 48)) 0

/-- ASCII lowercasing, the behaviour of Python `str.lower` on the ASCII
category labels the engine compares against. -/
def strLower (s : String) : String := ⟨s.data.map Char.toLower⟩

/-- ASCII uppercasing, the behaviour of Python `str.upper` on country
codes. -/
def strUpper (s : String) : String := ⟨s.data.map Char.toUpper⟩

/-- Strip leading and trailing whitespace, as Python `int`/`float` do on
string arguments. -/
def strTrim (s : String) : String :=
  ⟨((s.data.dropWhile Char.isWhitespace).reverse.dropWhile Char.isWhitespace).reverse⟩

/-- Models the Python builtin `int(str)`: optional surrounding whitespace,
optional sign, a non-empty run of decimal digits; anything else raises
(returns `none` here).  Underscore separators and other exotic accepted
forms are omitted; no claim depends on them. -/
def parseIntStr (s : String) : Option Int :=
  match (strTrim s).data with
  | [] => none
  | '-' :: ds => if ds ≠ [] ∧ ds.all Char.isDigit then some (-(digitsNatVal ds : Int)) else none
  | '+' :: ds => if ds ≠ [] ∧ ds.all Char.isDigit then some ((digitsNatVal ds : Int)) else none
  | ds => if ds.all Char.isDigit then some ((digitsNatVal ds : Int)) else none

/-- Models the Python builtin `float(str)`: optional whitespace and sign,
digits with an optional fractional part.  Exponent, `inf` and `nan` forms
are omitted; no claim depends on them. -/
def parseFloatStr (s : String) : Option ℚ :=
  let core : List Char → Option ℚ := fun cs =>
    let intPart := cs.takeWhile Char.isDigit
    match cs.dropWhile Char.isDigit with
    | [] => if intPart ≠ [] then some ((digitsNatVal intPart : ℚ)) else none
    | '.' :: frac =>
        if frac.all Char.isDigit ∧ (intPart ≠ [] ∨ frac ≠ []) then
          some ((digitsNatVal intPart : ℚ) + (digitsNatVal frac : ℚ) / ((10 : ℚ) ^ frac.length))
        else none
    | _ => none
  match (strTrim s).data with
  | '-' :: cs => (core cs).map (fun q => -q)
  | '+' :: cs => core cs
  | cs => core cs

/-- Truncation toward zero, the behaviour of Python `int(float)`. -/
def ratTrunc (q : ℚ) : Int := q.num.tdiv (q.den : Int)

/-- Models Python `repr`/`str` of a float: integral values print with a
trailing `.0`.  The rendering of non-integral values is immaterial: it only
ever appears as opaque text inside a reason token. -/
def floatRepr (q : ℚ) : String :=
  if q.den = 1 then toString q.num ++ ".0" else toString q.num ++ "/" ++ toString q.den

/-- Models Python `str(x)` on a raw value. -/
def pyStr : PyVal → String
  | .vNone => "None"
  | .vStr s => s
  | .vInt n => toString n
  | .vFloat q => floatRepr q

/-- Models the Python builtin `int(x)` on a raw value: `none` is a raised
`TypeError`/`ValueError`. -/
def intOfVal : PyVal → Option Int
  | .vNone => none
  | .vStr s => parseIntStr s
  | .vInt n => some n
  | .vFloat q => some (ratTrunc q)

/-- Models the Python builtin `float(x)` on a raw value. -/
def floatOfVal : PyVal → Option ℚ
  | .vNone => none
  | .vStr s => parseFloatStr s
  | .vInt n => some ((n : ℚ))
  | .vFloat q => some q

/-- `_s` from the source: permissive string coercion with a default for
`None`, optionally lowercased. -/
def _s (x : PyVal) (default : String) (lower : Bool) : String :=
  let s := match x with
    | .vNone => default
    | _ => pyStr x
  if lower then strLower s else s

/-- `_i` from the source: `int(x)`, falling back to `default` on any
exception. -/
def _i (x : PyVal) (default : Int) : Int :=
  match intOfVal x with
  | some n => n
  | none => default

/-- `_f` from the source: `float(x)`, falling back to `default` on any
exception. -/
def _f (x : PyVal) (default : ℚ) : ℚ :=
  match floatOfVal x with
  | some q => q
  | none => default

def DECISION_ACCEPTED : String := "ACCEPTED"
def DECISION_IN_REVIEW : String := "IN_REVIEW"
def DECISION_REJECTED : String := "REJECTED"

/-- Lookup in an association list, as Python `dict.get` (returning
`none` when the key is absent). -/
def lookupStr {α : Type} (k : String) : List (String × α) → Option α
  | [] => none
  | (k', v) :: rest => if k' = k then some v else lookupStr k rest

/-- The `score_weights` sub-dictionary of a configuration. -/
structure ScoreWeights where
  ip_risk : List (String × Int)
  email_risk : List (String × Int)
  device_fingerprint_risk : List (String × Int)
  user_reputation : List (String × Int)
  night_hour : Int
  geo_mismatch : Int
  high_amount : Int
  latency_extreme : Int
  new_user_high_amount : Int

/-- The `score_to_decision` sub-dictionary of a configuration. -/
structure ScoreToDecision where
  reject_at : Int
  review_at : Int

/-- A configuration dictionary.  The evaluator assumes a well-formed
configuration; in particular `amount_thresholds` must contain the
`"_default"` fallback entry (in Python its absence would raise inside
`high_amount`), which is recorded as the proof field
`default_threshold_present`. -/
structure Config where
  amount_thresholds : List (String × ℚ)
  latency_ms_extreme : Int
  chargeback_hard_block : Int
  score_weights : ScoreWeights
  score_to_decision : ScoreToDecision
  default_threshold_present : (lookupStr "_default" amount_thresholds).isSome

/-- `DEFAULT_CONFIG` from the source (without the optional environment
overrides of the two cutoffs, which only replace these constants by other
integers before any evaluation runs). -/
def DEFAULT_CONFIG : Config where
  amount_thresholds :=
    [("digital", 2500), ("physical", 6000), ("subscription", 1500), ("_default", 4000)]
  latency_ms_extreme := 2500
  chargeback_hard_block := 2
  score_weights :=
    { ip_risk := [("low", 0), ("medium", 2), ("high", 4)]
      email_risk := [("low", 0), ("medium", 1), ("high", 3), ("new_domain", 2)]
      device_fingerprint_risk := [("low", 0), ("medium", 2), ("high", 4)]
      user_reputation := [("trusted", -2), ("recurrent", -1), ("new", 0), ("high_risk", 4)]
      night_hour := 1
      geo_mismatch := 2
      high_amount := 2
      latency_extreme := 2
      new_user_high_amount := 2 }
  score_to_decision := { reject_at := 10, review_at := 4 }
  default_threshold_present := by decide

/-- `is_night` from the source. -/
def is_night (hour : Int) : Bool := 22 ≤ hour || hour ≤ 5

/-- `thresholds.get(product_type, thresholds.get("_default"))`: the
threshold used by `high_amount`. -/
def thresholdFor (cfg : Config) (product_type : String) : ℚ :=
  match lookupStr product_type cfg.amount_thresholds with
  | some t => t
  | none => (lookupStr "_default" cfg.amount_thresholds).get cfg.default_threshold_present

/-- `high_amount` from the source: inclusive comparison against the
product-type threshold. -/
def high_amount (amount : ℚ) (product_type : String) (cfg : Config) : Bool :=
  thresholdFor cfg product_type ≤ amount

/-- The running score and reason log (`_ScoreCtx` in the source). -/
structure ScoreCtx where
  score : Int
  reasons : List String
deriving DecidableEq

/-- The formatted reason token appended by `_ScoreCtx.add`:
`f"{reason}({sign}{points})"` with sign `+` for non-negative points. -/
def tokFor (reason : String) (points : Int) : String :=
  reason ++ "(" ++ (if 0 ≤ points then "+" else "") ++ toString points ++ ")"

/-- `_ScoreCtx.add`: update the score and log a token only when the delta
is non-zero. -/
def ScoreCtx.add (ctx : ScoreCtx) (points : Int) (reason : String) : ScoreCtx :=
  if points ≠ 0 then
    { score := ctx.score + points, reasons := ctx.reasons ++ [tokFor reason points] }
  else ctx

/-- A normalized transaction record, the output of `_normalize_row`. -/
structure NormRow where
  chargeback_count : Int
  ip_risk : String
  email_risk : String
  device_risk : String
  rep : String
  hour : Int
  bin_c : String
  ip_c : String
  amount : ℚ
  ptype : String
  lat : Int
  freq : Int

/-- A raw transaction record at the boundary: every field may be absent
(`none`) or hold an arbitrary loosely typed value. -/
structure RawRow where
  chargeback_count : Option PyVal
  ip_risk : Option PyVal
  email_risk : Option PyVal
  device_fingerprint_risk : Option PyVal
  user_reputation : Option PyVal
  hour : Option PyVal
  bin_country : Option PyVal
  ip_country : Option PyVal
  amount_mxn : Option PyVal
  product_type : Option PyVal
  latency_ms : Option PyVal
  customer_txn_30d : Option PyVal

/-- `row.get(key, default)` on a pandas row: the default is used when the
field is absent. -/
def rowGet (x : Option PyVal) (default : PyVal) : PyVal := x.getD default

/-- `_normalize_row` from the source.  Note that the `hour` entry calls
`_i` with its built-in parse-failure default `0`; only the absence default
is `12`. -/
def _normalize_row (row : RawRow) : NormRow where
  chargeback_count := _i (rowGet row.chargeback_count (.vInt 0)) 0
  ip_risk := _s (rowGet row.ip_risk (.vStr "low")) "" true
  email_risk := _s (rowGet row.email_risk (.vStr "low")) "" true
  device_risk := _s (rowGet row.device_fingerprint_risk (.vStr "low")) "" true
  rep := _s (rowGet row.user_reputation (.vStr "new")) "" true
  hour := _i (rowGet row.hour (.vInt 12)) 0
  bin_c := strUpper (_s (rowGet row.bin_country (.vStr "")) "" false)
  ip_c := strUpper (_s (rowGet row.ip_country (.vStr "")) "" false)
  amount := _f (rowGet row.amount_mxn (.vFloat 0)) 0
  ptype := _s (rowGet row.product_type (.vStr "_default")) "" true
  lat := _i (rowGet row.latency_ms (.vInt 0)) 0
  freq := _i (rowGet row.customer_txn_30d (.vInt 0)) 0

/-- The condition tested by `_apply_hard_block`. -/
def hardBlockCond (v : NormRow) (cfg : Config) : Bool :=
  cfg.chargeback_hard_block ≤ v.chargeback_count && v.ip_risk == "high"

/-- One iteration of the loop in `_apply_categorical`: look up the weight
for `value` in `tbl` (default 0) and add it under the name `key`. -/
def catStep (key value : String) (tbl : List (String × Int)) (ctx : ScoreCtx) : ScoreCtx :=
  let pts := (lookupStr value tbl).getD 0
  if pts ≠ 0 then ctx.add pts (key ++ ":" ++ value) else ctx

/-- `_apply_categorical`: the three categorical fields in fixed order. -/
def _apply_categorical (v : NormRow) (sw : ScoreWeights) (ctx : ScoreCtx) : ScoreCtx :=
  catStep "device_fingerprint_risk" v.device_risk sw.device_fingerprint_risk
    (catStep "email_risk" v.email_risk sw.email_risk
      (catStep "ip_risk" v.ip_risk sw.ip_risk ctx))

/-- `_apply_reputation`: formats and appends its token directly instead of
going through `add`, but with the same guard and format. -/
def _apply_reputation (v : NormRow) (sw : ScoreWeights) (ctx : ScoreCtx) : ScoreCtx :=
  let rep_pts := (lookupStr v.rep sw.user_reputation).getD 0
  if rep_pts ≠ 0 then
    { score := ctx.score + rep_pts
      reasons := ctx.reasons ++
        ["user_reputation:" ++ v.rep ++ "(" ++ (if 0 ≤ rep_pts then "+" else "") ++
          toString rep_pts ++ ")"] }
  else ctx

/-- `_apply_night`. -/
def _apply_night (v : NormRow) (sw : ScoreWeights) (ctx : ScoreCtx) : ScoreCtx :=
  if is_night v.hour then ctx.add sw.night_hour ("night_hour:" ++ toString v.hour) else ctx

/-- `_apply_geo`: both country strings non-empty (Python truthiness) and
different. -/
def _apply_geo (v : NormRow) (sw : ScoreWeights) (ctx : ScoreCtx) : ScoreCtx :=
  if v.bin_c ≠ "" ∧ v.ip_c ≠ "" ∧ v.bin_c ≠ v.ip_c then
    ctx.add sw.geo_mismatch ("geo_mismatch:" ++ v.bin_c ++ "!=" ++ v.ip_c)
  else ctx

/-- `_apply_high_amount`: the base rule and, for new users, the kicker. -/
def _apply_high_amount (v : NormRow) (cfg : Config) (sw : ScoreWeights) (ctx : ScoreCtx) :
    ScoreCtx :=
  if high_amount v.amount v.ptype cfg then
    let ctx1 := ctx.add sw.high_amount ("high_amount:" ++ v.ptype ++ ":" ++ floatRepr v.amount)
    if v.rep = "new" then ctx1.add sw.new_user_high_amount "new_user_high_amount" else ctx1
  else ctx

/-- `_apply_latency`. -/
def _apply_latency (v : NormRow) (cfg : Config) (sw : ScoreWeights) (ctx : ScoreCtx) : ScoreCtx :=
  if cfg.latency_ms_extreme ≤ v.lat then
    ctx.add sw.latency_extreme ("latency_extreme:" ++ toString v.lat ++ "ms")
  else ctx

/-- `_apply_frequency_buffer`: reads the score as accumulated so far. -/
def _apply_frequency_buffer (v : NormRow) (ctx : ScoreCtx) : ScoreCtx :=
  if (v.rep = "recurrent" ∨ v.rep = "trusted") ∧ 3 ≤ v.freq ∧ 0 < ctx.score then
    ctx.add (-1) "frequency_buffer"
  else ctx

/-- `_map_decision`. -/
def _map_decision (score : Int) (thresholds : ScoreToDecision) : String :=
  if thresholds.reject_at ≤ score then DECISION_REJECTED
  else if thresholds.review_at ≤ score then DECISION_IN_REVIEW
  else DECISION_ACCEPTED

/-- The evaluation context after steps 2–7 (everything before the
frequency buffer) starting from a fresh `_ScoreCtx`. -/
def preBufferCtx (v : NormRow) (cfg : Config) : ScoreCtx :=
  _apply_latency v cfg cfg.score_weights
    (_apply_high_amount v cfg cfg.score_weights
      (_apply_geo v cfg.score_weights
        (_apply_night v cfg.score_weights
          (_apply_reputation v cfg.score_weights
            (_apply_categorical v cfg.score_weights { score := 0, reasons := [] })))))

/-- The full rule pipeline of `assess_row` on the non-hard-block path. -/
def runRulesCtx (v : NormRow) (cfg : Config) : ScoreCtx :=
  _apply_frequency_buffer v (preBufferCtx v cfg)

/-- A decision result: the dictionary returned by `assess_row`, with
`reasons` already joined by `";"`. -/
structure DecisionResult where
  decision : String
  risk_score : Int
  reasons : String
deriving DecidableEq

/-- `assess_row` after normalization: the hard-block early exit, the rule
pipeline and the final decision mapping. -/
def assessNorm (v : NormRow) (cfg : Config) : DecisionResult :=
  if hardBlockCond v cfg then
    { decision := DECISION_REJECTED
      risk_score := 100
      reasons := String.intercalate ";" ["hard_block:chargebacks>=2+ip_high"] }
  else
    let ctx := runRulesCtx v cfg
    { decision := _map_decision ctx.score cfg.score_to_decision
      risk_score := ctx.score
      reasons := String.intercalate ";" ctx.reasons }

/-- `assess_row` from the source. -/
def assess_row (row : RawRow) (cfg : Config) : DecisionResult :=
  assessNorm (_normalize_row row) cfg

/-! Closed forms for the contribution of each rule: the signed point delta
it adds to the score and the (empty or singleton) list of reason tokens it
appends.  These are proved equal to the pipeline below and give every
claim a handle on order, membership and score accounting. -/

/-- Point delta of one categorical lookup. -/
def catDelta (value : String) (tbl : List (String × Int)) : Int :=
  (lookupStr value tbl).getD 0

/-- Tokens of one categorical lookup. -/
def catToks (key value : String) (tbl : List (String × Int)) : List String :=
  if catDelta value tbl ≠ 0 then [tokFor (key ++ ":" ++ value) (catDelta value tbl)] else []

/-- Point delta of the reputation step. -/
def repDelta (v : NormRow) (sw : ScoreWeights) : Int :=
  (lookupStr v.rep sw.user_reputation).getD 0

/-- Tokens of the reputation step. -/
def repToks (v : NormRow) (sw : ScoreWeights) : List String :=
  if repDelta v sw ≠ 0 then [tokFor ("user_reputation:" ++ v.rep) (repDelta v sw)] else []

/-- Point delta of the night-hour step. -/
def nightDelta (v : NormRow) (sw : ScoreWeights) : Int :=
  if is_night v.hour then sw.night_hour else 0

/-- Tokens of the night-hour step. -/
def nightToks (v : NormRow) (sw : ScoreWeights) : List String :=
  if is_night v.hour ∧ sw.night_hour ≠ 0 then
    [tokFor ("night_hour:" ++ toString v.hour) sw.night_hour]
  else []

/-- The geo-mismatch condition: both country codes non-empty and
different. -/
def geoCond (v : NormRow) : Prop := v.bin_c ≠ "" ∧ v.ip_c ≠ "" ∧ v.bin_c ≠ v.ip_c

instance (v : NormRow) : Decidable (geoCond v) := by unfold geoCond; infer_instance

/-- Point delta of the geo-mismatch step. -/
def geoDelta (v : NormRow) (sw : ScoreWeights) : Int :=
  if geoCond v then sw.geo_mismatch else 0

/-- Tokens of the geo-mismatch step. -/
def geoToks (v : NormRow) (sw : ScoreWeights) : List String :=
  if geoCond v ∧ sw.geo_mismatch ≠ 0 then
    [tokFor ("geo_mismatch:" ++ v.bin_c ++ "!=" ++ v.ip_c) sw.geo_mismatch]
  else []

/-- Point delta of the high-amount step (base weight plus the new-user
kicker). -/
def amtDelta (v : NormRow) (cfg : Config) : Int :=
  if high_amount v.amount v.ptype cfg then
    cfg.score_weights.high_amount +
      (if v.rep = "new" then cfg.score_weights.new_user_high_amount else 0)
  else 0

/-- Tokens of the high-amount step: the base token, then the kicker
token. -/
def amtToks (v : NormRow) (cfg : Config) : List String :=
  if high_amount v.amount v.ptype cfg then
    (if cfg.score_weights.high_amount ≠ 0 then
      [tokFor ("high_amount:" ++ v.ptype ++ ":" ++ floatRepr v.amount)
        cfg.score_weights.high_amount]
    else []) ++
    (if v.rep = "new" ∧ cfg.score_weights.new_user_high_amount ≠ 0 then
      [tokFor "new_user_high_amount" cfg.score_weights.new_user_high_amount]
    else [])
  else []

/-- Point delta of the latency step. -/
def latDelta (v : NormRow) (cfg : Config) : Int :=
  if cfg.latency_ms_extreme ≤ v.lat then cfg.score_weights.latency_extreme else 0

/-- Tokens of the latency step. -/
def latToks (v : NormRow) (cfg : Config) : List String :=
  if cfg.latency_ms_extreme ≤ v.lat ∧ cfg.score_weights.latency_extreme ≠ 0 then
    [tokFor ("latency_extreme:" ++ toString v.lat ++ "ms") cfg.score_weights.latency_extreme]
  else []

/-- The score accumulated through step 7 (before the frequency buffer),
associated the way the pipeline accumulates it. -/
def preScore (v : NormRow) (cfg : Config) : Int :=
  catDelta v.ip_risk cfg.score_weights.ip_risk +
  catDelta v.email_risk cfg.score_weights.email_risk +
  catDelta v.device_risk cfg.score_weights.device_fingerprint_risk +
  repDelta v cfg.score_weights + nightDelta v cfg.score_weights + geoDelta v cfg.score_weights +
  amtDelta v cfg + latDelta v cfg

/-- The reason tokens accumulated through step 7, in rule order. -/
def preToks (v : NormRow) (cfg : Config) : List String :=
  catToks "ip_risk" v.ip_risk cfg.score_weights.ip_risk ++
  catToks "email_risk" v.email_risk cfg.score_weights.email_risk ++
  catToks "device_fingerprint_risk" v.device_risk cfg.score_weights.device_fingerprint_risk ++
  repToks v cfg.score_weights ++ nightToks v cfg.score_weights ++ geoToks v cfg.score_weights ++
  amtToks v cfg ++ latToks v cfg

/-- Whether the frequency buffer fires. -/
def bufApplies (v : NormRow) (cfg : Config) : Prop :=
  (v.rep = "recurrent" ∨ v.rep = "trusted") ∧ 3 ≤ v.freq ∧ 0 < preScore v cfg

instance (v : NormRow) (cfg : Config) : Decidable (bufApplies v cfg) := by
  unfold bufApplies; infer_instance

/-- Tokens of the frequency-buffer step. -/
def bufToks (v : NormRow) (cfg : Config) : List String :=
  if bufApplies v cfg then ["frequency_buffer(-1)"] else []

/-! The delta an audit reader recovers from a reason token: the signed
number between the final `(` and the trailing `)`.  Parsing runs over the
reversed character list so that only the fixed-format suffix appended by
`add` is ever inspected. -/

/-- Value of a reversed list of decimal digits (least significant
first). -/
def digitsValRev (ds : List Char) : Nat :=
  ds.foldr (fun c acc => acc * 10 + (c.toNat - 48)) 0

/-- Parse the delta out of a reversed token. -/
def revDelta : List Char → Int
  | ')' :: cs =>
    match cs.takeWhile Char.isDigit, cs.dropWhile Char.isDigit with
    | [], _ => 0
    | ds, '+' :: '(' :: _ => (digitsValRev ds : Int)
    | ds, '-' :: '(' :: _ => -((digitsValRev ds : Int))
    | _, _ => 0
  | _ => 0

/-- The signed point delta embedded in a reason token. -/
def tokenDelta (s : String) : Int := revDelta s.data.reverse

/-- Whether a reason token is the base high-amount reason (they all carry
this fixed twelve-character label). -/
def startsWithHighAmount (s : String) : Bool := s.data.take 12 == "high_amount:".data

/-! Concrete fixtures used by scenario conjuncts, witnesses and
counterexamples. -/

/-- A fully low-risk normalized record (the accept-path fixture of the
repository's tests). -/
def vLow : NormRow where
  chargeback_count := 0
  ip_risk := "low"
  email_risk := "low"
  device_risk := "low"
  rep := "new"
  hour := 14
  bin_c := "MX"
  ip_c := "MX"
  amount := 100
  ptype := "digital"
  lat := 100
  freq := 0

/-- The night/geo/latency scenario record of the specification. -/
def vScenario : NormRow :=
  { vLow with hour := 23, lat := 3000, bin_c := "US", ip_c := "MX", amount := 400 }

/-- A trusted user with no other signal: final score is negative. -/
def vTrusted : NormRow := { vLow with rep := "trusted" }

/-- A trusted, frequent, medium-ip-risk record whose pre-buffer score is
zero below the amount threshold and positive above it. -/
def vC9 : NormRow := { vLow with rep := "trusted", ip_risk := "medium", freq := 5 }

/-- A new-user record above the physical amount threshold. -/
def vKick : NormRow := { vLow with amount := 6000, ptype := "physical", hour := 10, lat := 180 }

/-- A trusted, frequent record whose pre-buffer score is positive: the
frequency buffer fires. -/
def vBuf : NormRow := { vC9 with amount := 4500 }

/-- A trusted but infrequent record (`customer_txn_30d = 2`): the buffer
is ineligible in every evaluation, yet its pre-buffer score crosses zero
when the amount passes the threshold. -/
def vC9r : NormRow := { vLow with rep := "trusted", ip_risk := "medium", freq := 2 }

/-- A new-user record above the digital threshold, used against the
zero-base-weight configuration. -/
def vKickZero : NormRow := { vLow with amount := 9000 }

/-- The default configuration with the base high-amount weight set to
zero (the kicker weight stays 2). -/
def cfgZeroHigh : Config :=
  { DEFAULT_CONFIG with
    score_weights := { DEFAULT_CONFIG.score_weights with high_amount := 0 } }

/-- A raw row whose hour field is present but not parseable as an
integer. -/
def rawHourBad (x : PyVal) : RawRow where
  chargeback_count := none
  ip_risk := none
  email_risk := none
  device_fingerprint_risk := none
  user_reputation := none
  hour := some x
  bin_country := none
  ip_country := none
  amount_mxn := none
  product_type := none
  latency_ms := none
  customer_txn_30d := none

/-- A raw row with every field absent. -/
def rawEmpty : RawRow where
  chargeback_count := none
  ip_risk := none
  email_risk := none
  device_fingerprint_risk := none
  user_reputation := none
  hour := none
  bin_country := none
  ip_country := none
  amount_mxn := none
  product_type := none
  latency_ms := none
  customer_txn_30d := none

/-- A raw row triggering the hard block, with deliberately noisy other
fields. -/
def rawHard : RawRow :=
  { rawEmpty with
    chargeback_count := some (.vStr "3"),
    ip_risk := some (.vStr "HIGH"),
    amount_mxn := some (.vStr "garbage"),
    user_reputation := some (.vInt 7) }

/-! Per-rule closed-form lemmas and the pipeline decomposition. -/

theorem add_of_zero (ctx : ScoreCtx) (r : String) : ctx.add 0 r = ctx := by
  simp [ScoreCtx.add]

theorem add_of_ne (ctx : ScoreCtx) (p : Int) (r : String) (h : p ≠ 0) :
    ctx.add p r = { score := ctx.score + p, reasons := ctx.reasons ++ [tokFor r p] } := by
  simp [ScoreCtx.add, h]

theorem catStep_spec (k val : String) (tbl : List (String × Int)) (ctx : ScoreCtx) :
    catStep k val tbl ctx =
      { score := ctx.score + catDelta val tbl, reasons := ctx.reasons ++ catToks k val tbl } := by
  by_cases h : (lookupStr val tbl).getD 0 = 0 <;>
    simp [catStep, catDelta, catToks, h, ScoreCtx.add]

theorem rep_spec (v : NormRow) (sw : ScoreWeights) (ctx : ScoreCtx) :
    _apply_reputation v sw ctx =
      { score := ctx.score + repDelta v sw, reasons := ctx.reasons ++ repToks v sw } := by
  by_cases h : (lookupStr v.rep sw.user_reputation).getD 0 = 0 <;>
    simp [_apply_reputation, repDelta, repToks, tokFor, h]

theorem night_spec (v : NormRow) (sw : ScoreWeights) (ctx : ScoreCtx) :
    _apply_night v sw ctx =
      { score := ctx.score + nightDelta v sw, reasons := ctx.reasons ++ nightToks v sw } := by
  unfold _apply_night nightDelta nightToks
  by_cases hn : is_night v.hour
  · by_cases hw : sw.night_hour = 0 <;> simp [hn, hw, ScoreCtx.add]
  · simp [hn]

theorem geo_spec (v : NormRow) (sw : ScoreWeights) (ctx : ScoreCtx) :
    _apply_geo v sw ctx =
      { score := ctx.score + geoDelta v sw, reasons := ctx.reasons ++ geoToks v sw } := by
  unfold _apply_geo geoDelta geoToks geoCond
  by_cases hg : v.bin_c ≠ "" ∧ v.ip_c ≠ "" ∧ v.bin_c ≠ v.ip_c
  · by_cases hw : sw.geo_mismatch = 0 <;> simp [hg, hw, ScoreCtx.add]
  · simp [hg]

theorem amt_spec (v : NormRow) (cfg : Config) (ctx : ScoreCtx) :
    _apply_high_amount v cfg cfg.score_weights ctx =
      { score := ctx.score + amtDelta v cfg, reasons := ctx.reasons ++ amtToks v cfg } := by
  unfold _apply_high_amount amtDelta amtToks
  by_cases hc : high_amount v.amount v.ptype cfg
  · by_cases hr : v.rep = "new"
    · by_cases h1 : cfg.score_weights.high_amount = 0 <;>
        by_cases h2 : cfg.score_weights.new_user_high_amount = 0 <;>
          simp [hc, hr, h1, h2, ScoreCtx.add, add_assoc]
    · by_cases h1 : cfg.score_weights.high_amount = 0 <;> simp [hc, hr, h1, ScoreCtx.add]
  · simp [hc]

theorem lat_spec (v : NormRow) (cfg : Config) (ctx : ScoreCtx) :
    _apply_latency v cfg cfg.score_weights ctx =
      { score := ctx.score + latDelta v cfg, reasons := ctx.reasons ++ latToks v cfg } := by
  unfold _apply_latency latDelta latToks
  by_cases hl : cfg.latency_ms_extreme ≤ v.lat
  · by_cases hw : cfg.score_weights.latency_extreme = 0 <;> simp [hl, hw, ScoreCtx.add]
  · simp [hl]

theorem preBufferCtx_spec (v : NormRow) (cfg : Config) :
    preBufferCtx v cfg = { score := preScore v cfg, reasons := preToks v cfg } := by
  unfold preBufferCtx _apply_categorical preScore preToks
  simp only [catStep_spec, rep_spec, night_spec, geo_spec, amt_spec, lat_spec]
  simp [add_assoc, List.append_assoc]

theorem bufferTok_eq : tokFor "frequency_buffer" (-1) = "frequency_buffer(-1)" := rfl

theorem runRulesCtx_spec (v : NormRow) (cfg : Config) :
    runRulesCtx v cfg =
      if bufApplies v cfg then
        { score := preScore v cfg - 1, reasons := preToks v cfg ++ ["frequency_buffer(-1)"] }
      else { score := preScore v cfg, reasons := preToks v cfg } := by
  unfold runRulesCtx _apply_frequency_buffer bufApplies
  rw [preBufferCtx_spec]
  by_cases h : (v.rep = "recurrent" ∨ v.rep = "trusted") ∧ 3 ≤ v.freq ∧ 0 < preScore v cfg
  · simp [h, ScoreCtx.add, bufferTok_eq]
    omega
  · simp [h]

theorem assessNorm_of_not_hard (v : NormRow) (cfg : Config) (h : hardBlockCond v cfg = false) :
    assessNorm v cfg =
      { decision := _map_decision (runRulesCtx v cfg).score cfg.score_to_decision
        risk_score := (runRulesCtx v cfg).score
        reasons := String.intercalate ";" (runRulesCtx v cfg).reasons } := by
  unfold assessNorm
  rw [h]
  simp

theorem assessNorm_of_hard (v : NormRow) (cfg : Config) (h : hardBlockCond v cfg = true) :
    assessNorm v cfg =
      { decision := DECISION_REJECTED
        risk_score := 100
        reasons := "hard_block:chargebacks>=2+ip_high" } := by
  unfold assessNorm
  rw [h]
  simp [String.intercalate, String.intercalate.go]

/-! Tokens appended by different rules are pairwise distinct: each rule's
reason text begins with a fixed label and no two labels agree on their
first two characters. -/

theorem tokFor_ne_of_two {a b : String} {p q : Int} {c1 c2 d1 d2 : Char} {as bs : List Char}
    (ha : a.data = c1 :: c2 :: as) (hb : b.data = d1 :: d2 :: bs)
    (h : c1 ≠ d1 ∨ c2 ≠ d2) : tokFor a p ≠ tokFor b q := by
  intro he
  have hd := congrArg String.data he
  simp only [tokFor, String.data_append, ha, hb, List.cons_append, List.append_assoc,
    List.cons.injEq] at hd
  rcases h with h | h
  · exact h hd.1
  · exact h hd.2.1

theorem eq_of_mem_ite_singleton {c : Prop} [Decidable c] {x s : String}
    (h : s ∈ (if c then [x] else [])) : s = x ∧ c := by
  split at h
  · next hc => exact ⟨List.mem_singleton.mp h, hc⟩
  · simp at h

theorem mem_catToks {s k val : String} {tbl : List (String × Int)} (h : s ∈ catToks k val tbl) :
    s = tokFor (k ++ ":" ++ val) (catDelta val tbl) := by
  simp only [catToks] at h
  exact (eq_of_mem_ite_singleton h).1

theorem mem_repToks {s : String} {v : NormRow} {sw : ScoreWeights} (h : s ∈ repToks v sw) :
    s = tokFor ("user_reputation:" ++ v.rep) (repDelta v sw) := by
  simp only [repToks] at h
  exact (eq_of_mem_ite_singleton h).1

theorem mem_nightToks {s : String} {v : NormRow} {sw : ScoreWeights} (h : s ∈ nightToks v sw) :
    s = tokFor ("night_hour:" ++ toString v.hour) sw.night_hour := by
  simp only [nightToks] at h
  exact (eq_of_mem_ite_singleton h).1

theorem mem_geoToks {s : String} {v : NormRow} {sw : ScoreWeights} (h : s ∈ geoToks v sw) :
    s = tokFor ("geo_mismatch:" ++ v.bin_c ++ "!=" ++ v.ip_c) sw.geo_mismatch := by
  simp only [geoToks] at h
  exact (eq_of_mem_ite_singleton h).1

theorem mem_latToks {s : String} {v : NormRow} {cfg : Config} (h : s ∈ latToks v cfg) :
    s = tokFor ("latency_extreme:" ++ toString v.lat ++ "ms") cfg.score_weights.latency_extreme := by
  simp only [latToks] at h
  exact (eq_of_mem_ite_singleton h).1

theorem mem_amtToks {s : String} {v : NormRow} {cfg : Config} (h : s ∈ amtToks v cfg) :
    s = tokFor ("high_amount:" ++ v.ptype ++ ":" ++ floatRepr v.amount)
          cfg.score_weights.high_amount ∨
    s = tokFor "new_user_high_amount" cfg.score_weights.new_user_high_amount := by
  simp only [amtToks] at h
  split at h
  · rcases List.mem_append.mp h with h | h
    · exact Or.inl (eq_of_mem_ite_singleton h).1
    · exact Or.inr (eq_of_mem_ite_singleton h).1
  · simp at h

theorem buffer_not_mem_preToks (v : NormRow) (cfg : Config) :
    "frequency_buffer(-1)" ∉ preToks v cfg := by
  intro h
  have hb : ("frequency_buffer(-1)" : String) = tokFor "frequency_buffer" (-1) := rfl
  simp only [preToks, List.mem_append] at h
  rcases h with ((((((h | h) | h) | h) | h) | h) | h) | h
  · exact tokFor_ne_of_two rfl rfl (by decide) ((mem_catToks h).symm.trans hb)
  · exact tokFor_ne_of_two rfl rfl (by decide) ((mem_catToks h).symm.trans hb)
  · exact tokFor_ne_of_two rfl rfl (by decide) ((mem_catToks h).symm.trans hb)
  · exact tokFor_ne_of_two rfl rfl (by decide) ((mem_repToks h).symm.trans hb)
  · exact tokFor_ne_of_two rfl rfl (by decide) ((mem_nightToks h).symm.trans hb)
  · exact tokFor_ne_of_two rfl rfl (by decide) ((mem_geoToks h).symm.trans hb)
  · rcases mem_amtToks h with h | h
    · exact tokFor_ne_of_two rfl rfl (by decide) (h.symm.trans hb)
    · exact tokFor_ne_of_two rfl rfl (by decide) (h.symm.trans hb)
  · exact tokFor_ne_of_two rfl rfl (by decide) ((mem_latToks h).symm.trans hb)

/-! Reading the embedded delta back out of a token built by `add`, for
each delta value that occurs under the default configuration. -/

theorem tokFor_rev_p1 (r : String) :
    (tokFor r 1).data.reverse = ')' :: '1' :: '+' :: '(' :: r.data.reverse := by
  simp [tokFor, String.data_append, List.reverse_append,
    show (toString (1 : Int)).data = ['1'] from rfl]

theorem tokFor_rev_p2 (r : String) :
    (tokFor r 2).data.reverse = ')' :: '2' :: '+' :: '(' :: r.data.reverse := by
  simp [tokFor, String.data_append, List.reverse_append,
    show (toString (2 : Int)).data = ['2'] from rfl]

theorem tokFor_rev_p3 (r : String) :
    (tokFor r 3).data.reverse = ')' :: '3' :: '+' :: '(' :: r.data.reverse := by
  simp [tokFor, String.data_append, List.reverse_append,
    show (toString (3 : Int)).data = ['3'] from rfl]

theorem tokFor_rev_p4 (r : String) :
    (tokFor r 4).data.reverse = ')' :: '4' :: '+' :: '(' :: r.data.reverse := by
  simp [tokFor, String.data_append, List.reverse_append,
    show (toString (4 : Int)).data = ['4'] from rfl]

theorem tokFor_rev_m1 (r : String) :
    (tokFor r (-1)).data.reverse = ')' :: '1' :: '-' :: '(' :: r.data.reverse := by
  simp [tokFor, String.data_append, List.reverse_append,
    show (toString (-1 : Int)).data = ['-', '1'] from rfl]

theorem tokFor_rev_m2 (r : String) :
    (tokFor r (-2)).data.reverse = ')' :: '2' :: '-' :: '(' :: r.data.reverse := by
  simp [tokFor, String.data_append, List.reverse_append,
    show (toString (-2 : Int)).data = ['-', '2'] from rfl]

theorem tokenDelta_p1 (r : String) : tokenDelta (tokFor r 1) = 1 := by
  unfold tokenDelta; rw [tokFor_rev_p1]; rfl

theorem tokenDelta_p2 (r : String) : tokenDelta (tokFor r 2) = 2 := by
  unfold tokenDelta; rw [tokFor_rev_p2]; rfl

theorem tokenDelta_p3 (r : String) : tokenDelta (tokFor r 3) = 3 := by
  unfold tokenDelta; rw [tokFor_rev_p3]; rfl

theorem tokenDelta_p4 (r : String) : tokenDelta (tokFor r 4) = 4 := by
  unfold tokenDelta; rw [tokFor_rev_p4]; rfl

theorem tokenDelta_m1 (r : String) : tokenDelta (tokFor r (-1)) = -1 := by
  unfold tokenDelta; rw [tokFor_rev_m1]; rfl

theorem tokenDelta_m2 (r : String) : tokenDelta (tokFor r (-2)) = -2 := by
  unfold tokenDelta; rw [tokFor_rev_m2]; rfl

theorem tokFor_rev_p0 (r : String) :
    (tokFor r 0).data.reverse = ')' :: '0' :: '+' :: '(' :: r.data.reverse := by
  simp [tokFor, String.data_append, List.reverse_append,
    show (toString (0 : Int)).data = ['0'] from rfl]

theorem tokenDelta_p0 (r : String) : tokenDelta (tokFor r 0) = 0 := by
  unfold tokenDelta; rw [tokFor_rev_p0]; rfl

/-! Under the default configuration the delta embedded in each token reads
back as the delta the rule added, so the token list accounts for the whole
score. -/

theorem tokDelta_table_ip (r val : String) :
    tokenDelta (tokFor r (catDelta val DEFAULT_CONFIG.score_weights.ip_risk)) =
      catDelta val DEFAULT_CONFIG.score_weights.ip_risk := by
  unfold catDelta
  simp only [show DEFAULT_CONFIG.score_weights.ip_risk =
    [("low", 0), ("medium", 2), ("high", 4)] from rfl, lookupStr]
  split_ifs <;> simp [tokenDelta_p0, tokenDelta_p2, tokenDelta_p4]

theorem tokDelta_table_email (r val : String) :
    tokenDelta (tokFor r (catDelta val DEFAULT_CONFIG.score_weights.email_risk)) =
      catDelta val DEFAULT_CONFIG.score_weights.email_risk := by
  unfold catDelta
  simp only [show DEFAULT_CONFIG.score_weights.email_risk =
    [("low", 0), ("medium", 1), ("high", 3), ("new_domain", 2)] from rfl, lookupStr]
  split_ifs <;> simp [tokenDelta_p0, tokenDelta_p1, tokenDelta_p2, tokenDelta_p3]

theorem tokDelta_table_device (r val : String) :
    tokenDelta (tokFor r (catDelta val DEFAULT_CONFIG.score_weights.device_fingerprint_risk)) =
      catDelta val DEFAULT_CONFIG.score_weights.device_fingerprint_risk := by
  unfold catDelta
  simp only [show DEFAULT_CONFIG.score_weights.device_fingerprint_risk =
    [("low", 0), ("medium", 2), ("high", 4)] from rfl, lookupStr]
  split_ifs <;> simp [tokenDelta_p0, tokenDelta_p2, tokenDelta_p4]

theorem tokDelta_table_rep (r val : String) :
    tokenDelta (tokFor r (catDelta val DEFAULT_CONFIG.score_weights.user_reputation)) =
      catDelta val DEFAULT_CONFIG.score_weights.user_reputation := by
  unfold catDelta
  simp only [show DEFAULT_CONFIG.score_weights.user_reputation =
    [("trusted", -2), ("recurrent", -1), ("new", 0), ("high_risk", 4)] from rfl, lookupStr]
  split_ifs <;> simp [tokenDelta_p0, tokenDelta_m1, tokenDelta_m2, tokenDelta_p4]

theorem sum_catToks_of (k val : String) (tbl : List (String × Int))
    (hp : tokenDelta (tokFor (k ++ ":" ++ val) (catDelta val tbl)) = catDelta val tbl) :
    ((catToks k val tbl).map tokenDelta).sum = catDelta val tbl := by
  unfold catToks
  by_cases h : catDelta val tbl = 0 <;> simp [h, hp]

theorem sum_repToks_default (v : NormRow) :
    ((repToks v DEFAULT_CONFIG.score_weights).map tokenDelta).sum =
      repDelta v DEFAULT_CONFIG.score_weights := by
  unfold repToks
  have hp := tokDelta_table_rep ("user_reputation:" ++ v.rep) v.rep
  have he : repDelta v DEFAULT_CONFIG.score_weights =
      catDelta v.rep DEFAULT_CONFIG.score_weights.user_reputation := rfl
  rw [he]
  by_cases h : catDelta v.rep DEFAULT_CONFIG.score_weights.user_reputation = 0 <;> simp [h, hp]

theorem sum_nightToks_default (v : NormRow) :
    ((nightToks v DEFAULT_CONFIG.score_weights).map tokenDelta).sum =
      nightDelta v DEFAULT_CONFIG.score_weights := by
  unfold nightToks nightDelta
  by_cases hn : is_night v.hour <;>
    simp [hn, show DEFAULT_CONFIG.score_weights.night_hour = 1 from rfl, tokenDelta_p1]

theorem sum_geoToks_default (v : NormRow) :
    ((geoToks v DEFAULT_CONFIG.score_weights).map tokenDelta).sum =
      geoDelta v DEFAULT_CONFIG.score_weights := by
  unfold geoToks geoDelta
  by_cases hg : geoCond v <;>
    simp [hg, show DEFAULT_CONFIG.score_weights.geo_mismatch = 2 from rfl, tokenDelta_p2]

theorem sum_amtToks_default (v : NormRow) :
    ((amtToks v DEFAULT_CONFIG).map tokenDelta).sum = amtDelta v DEFAULT_CONFIG := by
  unfold amtToks amtDelta
  by_cases hc : high_amount v.amount v.ptype DEFAULT_CONFIG
  · by_cases hr : v.rep = "new" <;>
      simp [hc, hr, show DEFAULT_CONFIG.score_weights.high_amount = 2 from rfl,
        show DEFAULT_CONFIG.score_weights.new_user_high_amount = 2 from rfl, tokenDelta_p2]
  · simp [hc]

theorem sum_latToks_default (v : NormRow) :
    ((latToks v DEFAULT_CONFIG).map tokenDelta).sum = latDelta v DEFAULT_CONFIG := by
  unfold latToks latDelta
  by_cases hl : DEFAULT_CONFIG.latency_ms_extreme ≤ v.lat <;>
    simp [hl, show DEFAULT_CONFIG.score_weights.latency_extreme = 2 from rfl, tokenDelta_p2]

theorem sum_preToks_default (v : NormRow) :
    ((preToks v DEFAULT_CONFIG).map tokenDelta).sum = preScore v DEFAULT_CONFIG := by
  unfold preToks preScore
  simp only [List.map_append, List.sum_append]
  rw [sum_catToks_of _ _ _ (tokDelta_table_ip _ _),
    sum_catToks_of _ _ _ (tokDelta_table_email _ _),
    sum_catToks_of _ _ _ (tokDelta_table_device _ _),
    sum_repToks_default, sum_nightToks_default, sum_geoToks_default,
    sum_amtToks_default, sum_latToks_default]

/-- C1: for every record whose normalized `chargeback_count` reaches the
configured `chargeback_hard_block` and whose normalized `ip_risk` is
`"high"`, `assess_row` returns decision REJECTED, risk score 100, and
exactly the single fixed literal reason
`"hard_block:chargebacks>=2+ip_high"`, regardless of every other field
value; no later rule contributes. -/
theorem hard_block_rejects (row : RawRow) (cfg : Config)
    (h1 : cfg.chargeback_hard_block ≤ (_normalize_row row).chargeback_count)
    (h2 : (_normalize_row row).ip_risk = "high") :
    assess_row row cfg =
      { decision := DECISION_REJECTED, risk_score := 100,
        reasons := "hard_block:chargebacks>=2+ip_high" } := by
  unfold assess_row
  have hb : hardBlockCond (_normalize_row row) cfg = true := by
    simp [hardBlockCond, h1, h2]
  exact assessNorm_of_hard _ _ hb

theorem hard_block_rejects_witness :
    DEFAULT_CONFIG.chargeback_hard_block ≤ (_normalize_row rawHard).chargeback_count ∧
    (_normalize_row rawHard).ip_risk = "high" ∧
    assess_row rawHard DEFAULT_CONFIG =
      { decision := DECISION_REJECTED, risk_score := 100,
        reasons := "hard_block:chargebacks>=2+ip_high" } :=
  ⟨by decide, by decide, hard_block_rejects rawHard DEFAULT_CONFIG (by decide) (by decide)⟩

/-- C2: `assess_row` is total over arbitrary raw rows under the default
configuration — it always returns one of the three decisions — and
normalization absorbs malformed fields: a numeric value that fails to
parse falls back to the supplied default, and string coercion accepts any
value permissively. -/
theorem assess_row_total :
    (∀ row : RawRow,
      (assess_row row DEFAULT_CONFIG).decision = DECISION_ACCEPTED ∨
      (assess_row row DEFAULT_CONFIG).decision = DECISION_IN_REVIEW ∨
      (assess_row row DEFAULT_CONFIG).decision = DECISION_REJECTED) ∧
    (∀ (x : PyVal) (d : Int), intOfVal x = none → _i x d = d) ∧
    (∀ (x : PyVal) (d : ℚ), floatOfVal x = none → _f x d = d) ∧
    (∀ (s d : String), _s (.vStr s) d true = strLower s) ∧
    (∀ (n : Int) (d : String), _s (.vInt n) d true = strLower (toString n)) ∧
    (∀ d : String, _s .vNone d true = strLower d) := by
  refine ⟨?_, ?_, ?_, ?_, ?_, ?_⟩
  · intro row
    unfold assess_row assessNorm
    by_cases hb : hardBlockCond (_normalize_row row) DEFAULT_CONFIG
    · simp [hb]
    · simp only [hb, Bool.false_eq_true, if_false]
      unfold _map_decision
      split_ifs <;> simp
  · intro x d h
    simp [_i, h]
  · intro x d h
    simp [_f, h]
  · intro s d
    rfl
  · intro n d
    rfl
  · intro d
    rfl

theorem assess_row_total_witness :
    ((assess_row rawEmpty DEFAULT_CONFIG).decision = DECISION_ACCEPTED ∨
      (assess_row rawEmpty DEFAULT_CONFIG).decision = DECISION_IN_REVIEW ∨
      (assess_row rawEmpty DEFAULT_CONFIG).decision = DECISION_REJECTED) ∧
    _i (.vStr "abc") 7 = 7 ∧ _f (.vStr "abc") 3 = 3 :=
  ⟨assess_row_total.1 rawEmpty,
   assess_row_total.2.1 (.vStr "abc") 7 (by decide),
   assess_row_total.2.2.1 (.vStr "abc") 3 (by decide)⟩

/-- C3: the decision mapping is a pure step function of the final score
and the two cutoffs: REJECTED exactly when the score reaches `reject_at`,
IN_REVIEW exactly when it is below `reject_at` but reaches `review_at`,
ACCEPTED otherwise; scores are never clamped (a negative final score is
returned as-is and maps to ACCEPTED), and under the default cutoffs
3 ↦ ACCEPTED, 4 ↦ IN_REVIEW, 9 ↦ IN_REVIEW, 10 ↦ REJECTED. -/
theorem map_decision_spec :
    (∀ (s : Int) (t : ScoreToDecision),
      (_map_decision s t = DECISION_REJECTED ↔ t.reject_at ≤ s)) ∧
    (∀ (s : Int) (t : ScoreToDecision),
      (_map_decision s t = DECISION_IN_REVIEW ↔ s < t.reject_at ∧ t.review_at ≤ s)) ∧
    (∀ (s : Int) (t : ScoreToDecision),
      (_map_decision s t = DECISION_ACCEPTED ↔ s < t.reject_at ∧ s < t.review_at)) ∧
    (∀ s : Int, s < 0 → _map_decision s DEFAULT_CONFIG.score_to_decision = DECISION_ACCEPTED) ∧
    _map_decision 3 DEFAULT_CONFIG.score_to_decision = DECISION_ACCEPTED ∧
    _map_decision 4 DEFAULT_CONFIG.score_to_decision = DECISION_IN_REVIEW ∧
    _map_decision 9 DEFAULT_CONFIG.score_to_decision = DECISION_IN_REVIEW ∧
    _map_decision 10 DEFAULT_CONFIG.score_to_decision = DECISION_REJECTED ∧
    assessNorm vTrusted DEFAULT_CONFIG =
      { decision := DECISION_ACCEPTED, risk_score := -2,
        reasons := "user_reputation:trusted(-2)" } := by
  have hAR : DECISION_ACCEPTED ≠ DECISION_REJECTED := by decide
  have hIR : DECISION_IN_REVIEW ≠ DECISION_REJECTED := by decide
  have hAI : DECISION_ACCEPTED ≠ DECISION_IN_REVIEW := by decide
  refine ⟨?_, ?_, ?_, ?_, by decide, by decide, by decide, by decide, by decide⟩
  · intro s t
    unfold _map_decision
    split_ifs with h1 h2
    · simp [h1]
    · constructor
      · intro hh
        exact absurd hh hIR
      · intro hh
        exact absurd hh h1
    · constructor
      · intro hh
        exact absurd hh hAR
      · intro hh
        exact absurd hh h1
  · intro s t
    unfold _map_decision
    split_ifs with h1 h2
    · constructor
      · intro hh
        exact absurd hh.symm hIR
      · intro hh
        omega
    · simp
      omega
    · constructor
      · intro hh
        exact absurd hh hAI
      · intro hh
        omega
  · intro s t
    unfold _map_decision
    split_ifs with h1 h2
    · constructor
      · intro hh
        exact absurd hh hAR.symm
      · intro hh
        omega
    · constructor
      · intro hh
        exact absurd hh hAI.symm
      · intro hh
        omega
    · simp
      omega
  · intro s hs
    unfold _map_decision
    split_ifs with h1 h2
    · exact absurd h1 (by simp [DEFAULT_CONFIG] at *; omega)
    · exact absurd h2 (by simp [DEFAULT_CONFIG] at *; omega)
    · rfl

theorem map_decision_spec_witness :
    _map_decision (-5) DEFAULT_CONFIG.score_to_decision = DECISION_ACCEPTED ∧
    _map_decision 12 { reject_at := 10, review_at := 4 } = DECISION_REJECTED :=
  ⟨map_decision_spec.2.2.2.1 (-5) (by decide),
   (map_decision_spec.1 12 { reject_at := 10, review_at := 4 }).mpr (by decide)⟩

/-- C4: the frequency buffer fires at most once, exactly when the user is
trusted or recurrent, `customer_txn_30d >= 3`, and the score accumulated
through step 7 is strictly positive; it then subtracts exactly one point
and appends `"frequency_buffer(-1)"` as the last token, and otherwise
leaves the evaluation unchanged (in particular no buffer token can come
from any earlier rule). -/
theorem frequency_buffer_spec (v : NormRow) (cfg : Config) :
    (((v.rep = "recurrent" ∨ v.rep = "trusted") ∧ 3 ≤ v.freq ∧
        0 < (preBufferCtx v cfg).score) →
      (runRulesCtx v cfg).score = (preBufferCtx v cfg).score - 1 ∧
      (runRulesCtx v cfg).reasons = (preBufferCtx v cfg).reasons ++ ["frequency_buffer(-1)"]) ∧
    (¬ ((v.rep = "recurrent" ∨ v.rep = "trusted") ∧ 3 ≤ v.freq ∧
        0 < (preBufferCtx v cfg).score) →
      runRulesCtx v cfg = preBufferCtx v cfg) ∧
    "frequency_buffer(-1)" ∉ (preBufferCtx v cfg).reasons := by
  refine ⟨?_, ?_, ?_⟩
  · intro h
    unfold runRulesCtx _apply_frequency_buffer
    rw [if_pos h, add_of_ne _ _ _ (by norm_num)]
    constructor
    · show (preBufferCtx v cfg).score + (-1) = (preBufferCtx v cfg).score - 1
      omega
    · show (preBufferCtx v cfg).reasons ++ [tokFor "frequency_buffer" (-1)] = _
      rw [bufferTok_eq]
  · intro h
    unfold runRulesCtx _apply_frequency_buffer
    rw [if_neg h]
  · rw [preBufferCtx_spec]
    exact buffer_not_mem_preToks v cfg

theorem frequency_buffer_spec_witness :
    ((vBuf.rep = "recurrent" ∨ vBuf.rep = "trusted") ∧ 3 ≤ vBuf.freq ∧
      0 < (preBufferCtx vBuf DEFAULT_CONFIG).score) ∧
    (runRulesCtx vBuf DEFAULT_CONFIG).score = (preBufferCtx vBuf DEFAULT_CONFIG).score - 1 ∧
    (runRulesCtx vBuf DEFAULT_CONFIG).reasons =
      (preBufferCtx vBuf DEFAULT_CONFIG).reasons ++ ["frequency_buffer(-1)"] :=
  ⟨by decide, (frequency_buffer_spec vBuf DEFAULT_CONFIG).1 (by decide)⟩

theorem kick_mem_imp_base {v : NormRow} {cfg : Config}
    (hw : cfg.score_weights.high_amount ≠ 0)
    (h : tokFor "new_user_high_amount" cfg.score_weights.new_user_high_amount ∈
      preToks v cfg) :
    tokFor ("high_amount:" ++ v.ptype ++ ":" ++ floatRepr v.amount)
      cfg.score_weights.high_amount ∈ preToks v cfg := by
  have hcase : high_amount v.amount v.ptype cfg = true := by
    simp only [preToks, List.mem_append] at h
    rcases h with ((((((h | h) | h) | h) | h) | h) | h) | h
    · exact absurd (mem_catToks h).symm (tokFor_ne_of_two rfl rfl (by decide))
    · exact absurd (mem_catToks h).symm (tokFor_ne_of_two rfl rfl (by decide))
    · exact absurd (mem_catToks h).symm (tokFor_ne_of_two rfl rfl (by decide))
    · exact absurd (mem_repToks h).symm (tokFor_ne_of_two rfl rfl (by decide))
    · exact absurd (mem_nightToks h).symm (tokFor_ne_of_two rfl rfl (by decide))
    · exact absurd (mem_geoToks h).symm (tokFor_ne_of_two rfl rfl (by decide))
    · simp only [amtToks] at h
      split at h
      · next hc => exact hc
      · simp at h
    · exact absurd (mem_latToks h).symm (tokFor_ne_of_two rfl rfl (by decide))
  have hbase : tokFor ("high_amount:" ++ v.ptype ++ ":" ++ floatRepr v.amount)
      cfg.score_weights.high_amount ∈ amtToks v cfg := by
    simp [amtToks, hcase, hw]
  simp only [preToks, List.mem_append]
  exact Or.inl (Or.inr hbase)

/-- C5 (amended): for every record and every configuration whose base
`high_amount` weight is non-zero, the `new_user_high_amount` kicker token
appears in the reason log only if the base high-amount token appears as
well — the kicker fires only when the base rule fired.  (With a zero base
weight the base rule is silent while the kicker can still log, see the
counterexample.) -/
theorem new_user_kicker_conditional (v : NormRow) (cfg : Config)
    (hw : cfg.score_weights.high_amount ≠ 0)
    (hk : tokFor "new_user_high_amount" cfg.score_weights.new_user_high_amount ∈
      (runRulesCtx v cfg).reasons) :
    tokFor ("high_amount:" ++ v.ptype ++ ":" ++ floatRepr v.amount)
      cfg.score_weights.high_amount ∈ (runRulesCtx v cfg).reasons := by
  rw [runRulesCtx_spec] at hk ⊢
  by_cases hb : bufApplies v cfg
  · rw [if_pos hb] at hk ⊢
    show _ ∈ preToks v cfg ++ ["frequency_buffer(-1)"]
    have hk' : tokFor "new_user_high_amount" cfg.score_weights.new_user_high_amount ∈
        preToks v cfg := by
      rcases List.mem_append.mp hk with h | h
      · exact h
      · have he := List.mem_singleton.mp h
        rw [← bufferTok_eq] at he
        exact absurd he (tokFor_ne_of_two rfl rfl (by decide))
    exact List.mem_append.mpr (Or.inl (kick_mem_imp_base hw hk'))
  · rw [if_neg hb] at hk ⊢
    exact kick_mem_imp_base hw hk

theorem new_user_kicker_conditional_witness :
    DEFAULT_CONFIG.score_weights.high_amount ≠ 0 ∧
    tokFor "new_user_high_amount" DEFAULT_CONFIG.score_weights.new_user_high_amount ∈
      (runRulesCtx vKick DEFAULT_CONFIG).reasons ∧
    tokFor ("high_amount:" ++ vKick.ptype ++ ":" ++ floatRepr vKick.amount)
      DEFAULT_CONFIG.score_weights.high_amount ∈ (runRulesCtx vKick DEFAULT_CONFIG).reasons :=
  ⟨by decide, by decide,
    new_user_kicker_conditional vKick DEFAULT_CONFIG (by decide) (by decide)⟩

/-- C5 counterexample to the claim as stated over every configuration:
with the base `high_amount` weight set to zero, a new user above the
threshold gets the kicker reason while no high-amount reason appears in
the same result. -/
theorem new_user_kicker_counterexample :
    tokFor "new_user_high_amount" cfgZeroHigh.score_weights.new_user_high_amount ∈
      (runRulesCtx vKickZero cfgZeroHigh).reasons ∧
    (runRulesCtx vKickZero cfgZeroHigh).reasons = ["new_user_high_amount(+2)"] ∧
    (∀ s ∈ (runRulesCtx vKickZero cfgZeroHigh).reasons, startsWithHighAmount s = false) :=
  ⟨by decide, by decide, by decide⟩

/-- C6: every scoring step — the shared `add` primitive, the categorical
lookups, and the hand-rolled reputation step — appends a reason token
exactly when its point delta is non-zero: an unrecognized value (absent
from the table) contributes 0 and emits nothing, a zero-point table match
is silent, and every emitted token has the format
`"{field_name}:{value}({sign}{points})"` with sign `"+"` for points ≥ 0
and `""` for negative points. -/
theorem rule_logging_spec :
    (∀ (ctx : ScoreCtx) (r : String), ctx.add 0 r = ctx) ∧
    (∀ (ctx : ScoreCtx) (p : Int) (r : String), p ≠ 0 →
      ctx.add p r =
        { score := ctx.score + p
          reasons := ctx.reasons ++
            [r ++ "(" ++ (if 0 ≤ p then "+" else "") ++ toString p ++ ")"] }) ∧
    (∀ (k val : String) (tbl : List (String × Int)) (ctx : ScoreCtx),
      lookupStr val tbl = none → catStep k val tbl ctx = ctx) ∧
    (∀ (k val : String) (tbl : List (String × Int)) (ctx : ScoreCtx),
      lookupStr val tbl = some 0 → catStep k val tbl ctx = ctx) ∧
    (∀ (k val : String) (tbl : List (String × Int)) (ctx : ScoreCtx) (p : Int),
      lookupStr val tbl = some p → p ≠ 0 →
      catStep k val tbl ctx =
        { score := ctx.score + p
          reasons := ctx.reasons ++
            [k ++ ":" ++ val ++ "(" ++ (if 0 ≤ p then "+" else "") ++ toString p ++ ")"] }) ∧
    (∀ (v : NormRow) (sw : ScoreWeights) (ctx : ScoreCtx),
      lookupStr v.rep sw.user_reputation = none → _apply_reputation v sw ctx = ctx) ∧
    (∀ (v : NormRow) (sw : ScoreWeights) (ctx : ScoreCtx),
      lookupStr v.rep sw.user_reputation = some 0 → _apply_reputation v sw ctx = ctx) ∧
    (∀ (v : NormRow) (sw : ScoreWeights) (ctx : ScoreCtx) (p : Int),
      lookupStr v.rep sw.user_reputation = some p → p ≠ 0 →
      _apply_reputation v sw ctx =
        { score := ctx.score + p
          reasons := ctx.reasons ++
            ["user_reputation:" ++ v.rep ++ "(" ++ (if 0 ≤ p then "+" else "") ++
              toString p ++ ")"] }) := by
  refine ⟨?_, ?_, ?_, ?_, ?_, ?_, ?_, ?_⟩
  · intro ctx r
    simp [ScoreCtx.add]
  · intro ctx p r hp
    simp [ScoreCtx.add, tokFor, hp]
  · intro k val tbl ctx h
    simp [catStep, h]
  · intro k val tbl ctx h
    simp [catStep, h]
  · intro k val tbl ctx p h hp
    simp [catStep, h, hp, ScoreCtx.add, tokFor, String.append_assoc]
  · intro v sw ctx h
    simp [_apply_reputation, h]
  · intro v sw ctx h
    simp [_apply_reputation, h]
  · intro v sw ctx p h hp
    simp [_apply_reputation, h, hp]

theorem rule_logging_spec_witness :
    ScoreCtx.add { score := 0, reasons := [] } 0 "x" = { score := 0, reasons := [] } ∧
    catStep "ip_risk" "weird" [("low", 0), ("medium", 2), ("high", 4)]
      { score := 0, reasons := [] } = { score := 0, reasons := [] } ∧
    catStep "ip_risk" "low" [("low", 0), ("medium", 2), ("high", 4)]
      { score := 0, reasons := [] } = { score := 0, reasons := [] } ∧
    catStep "ip_risk" "medium" [("low", 0), ("medium", 2), ("high", 4)]
      { score := 0, reasons := [] } = { score := 2, reasons := ["ip_risk:medium(+2)"] } :=
  ⟨rule_logging_spec.1 _ "x",
   rule_logging_spec.2.2.1 "ip_risk" "weird" _ _ (by decide),
   rule_logging_spec.2.2.2.1 "ip_risk" "low" _ _ (by decide),
   by
    have h : catStep "ip_risk" "medium" [("low", 0), ("medium", 2), ("high", 4)]
        { score := 0, reasons := [] } =
        { score := (0 : Int) + 2
          reasons := ([] : List String) ++
            ["ip_risk" ++ ":" ++ "medium" ++ "(" ++ (if (0 : Int) ≤ 2 then "+" else "") ++
              toString (2 : Int) ++ ")"] } :=
      rule_logging_spec.2.2.2.2.1 "ip_risk" "medium"
        [("low", 0), ("medium", 2), ("high", 4)] { score := 0, reasons := [] } 2
        (by decide) (by decide)
    rw [h]
    decide⟩

/-- C7: on the non-hard-block path the reason log is exactly the
concatenation, in fixed rule order, of each rule's token list — ip risk,
email risk, device risk, reputation, night hour, geo mismatch, high
amount with its kicker immediately after, latency, then the frequency
buffer — and the returned string joins them with `";"`; the hard-block
path short-circuits to the single hard-block reason.  The specification's
scenario record yields exactly the three tokens night, geo, latency in
that order with score 5 and decision IN_REVIEW. -/
theorem reasons_order_spec (v : NormRow) (cfg : Config) :
    ((runRulesCtx v cfg).reasons =
      catToks "ip_risk" v.ip_risk cfg.score_weights.ip_risk ++
      catToks "email_risk" v.email_risk cfg.score_weights.email_risk ++
      catToks "device_fingerprint_risk" v.device_risk cfg.score_weights.device_fingerprint_risk ++
      repToks v cfg.score_weights ++ nightToks v cfg.score_weights ++
      geoToks v cfg.score_weights ++ amtToks v cfg ++ latToks v cfg ++ bufToks v cfg) ∧
    (hardBlockCond v cfg = false →
      (assessNorm v cfg).reasons = String.intercalate ";" ((runRulesCtx v cfg).reasons)) ∧
    (hardBlockCond v cfg = true →
      (assessNorm v cfg).reasons = "hard_block:chargebacks>=2+ip_high") ∧
    assessNorm vScenario DEFAULT_CONFIG =
      { decision := DECISION_IN_REVIEW, risk_score := 5,
        reasons := "night_hour:23(+1);geo_mismatch:US!=MX(+2);latency_extreme:3000ms(+2)" } := by
  refine ⟨?_, ?_, ?_, by decide⟩
  · rw [runRulesCtx_spec]
    by_cases hb : bufApplies v cfg
    · rw [if_pos hb]
      show preToks v cfg ++ ["frequency_buffer(-1)"] = _
      simp [preToks, bufToks, hb, List.append_assoc]
    · rw [if_neg hb]
      show preToks v cfg = _
      simp [preToks, bufToks, hb, List.append_assoc]
  · intro h
    rw [assessNorm_of_not_hard _ _ h]
  · intro h
    rw [assessNorm_of_hard _ _ h]

theorem reasons_order_spec_witness :
    hardBlockCond vScenario DEFAULT_CONFIG = false ∧
    (assessNorm vScenario DEFAULT_CONFIG).reasons =
      String.intercalate ";" ((runRulesCtx vScenario DEFAULT_CONFIG).reasons) :=
  ⟨by decide, (reasons_order_spec vScenario DEFAULT_CONFIG).2.1 (by decide)⟩

/-- C8 (amended): normalization maps an absent hour to 12, but a present
hour value that fails integer parsing falls back to 0 — the built-in
default of `_i`, since `_normalize_row` does not pass 12 as the
parse-failure default; parse failure in every other numeric field falls
back to 0 (which coincides with that field's absence default), and a
parseable hour is taken as parsed; normalization never signals an
error. -/
theorem hour_normalization_spec :
    (∀ row : RawRow, row.hour = none → (_normalize_row row).hour = 12) ∧
    (∀ (row : RawRow) (x : PyVal), row.hour = some x → intOfVal x = none →
      (_normalize_row row).hour = 0) ∧
    (∀ (row : RawRow) (x : PyVal) (n : Int), row.hour = some x → intOfVal x = some n →
      (_normalize_row row).hour = n) ∧
    (∀ (row : RawRow) (x : PyVal), row.chargeback_count = some x → intOfVal x = none →
      (_normalize_row row).chargeback_count = 0) ∧
    (∀ (row : RawRow) (x : PyVal), row.latency_ms = some x → intOfVal x = none →
      (_normalize_row row).lat = 0) ∧
    (∀ (row : RawRow) (x : PyVal), row.customer_txn_30d = some x → intOfVal x = none →
      (_normalize_row row).freq = 0) ∧
    (∀ (row : RawRow) (x : PyVal), row.amount_mxn = some x → floatOfVal x = none →
      (_normalize_row row).amount = 0) := by
  refine ⟨?_, ?_, ?_, ?_, ?_, ?_, ?_⟩
  · intro row h
    simp [_normalize_row, rowGet, h, _i, intOfVal]
  · intro row x h hx
    simp [_normalize_row, rowGet, h, _i, hx]
  · intro row x n h hx
    simp [_normalize_row, rowGet, h, _i, hx]
  · intro row x h hx
    simp [_normalize_row, rowGet, h, _i, hx]
  · intro row x h hx
    simp [_normalize_row, rowGet, h, _i, hx]
  · intro row x h hx
    simp [_normalize_row, rowGet, h, _i, hx]
  · intro row x h hx
    simp [_normalize_row, rowGet, h, _f, hx]

theorem hour_normalization_spec_witness :
    (_normalize_row rawEmpty).hour = 12 ∧
    (_normalize_row (rawHourBad (.vStr "noon"))).hour = 0 ∧
    (_normalize_row (rawHourBad (.vStr "21"))).hour = 21 :=
  ⟨hour_normalization_spec.1 rawEmpty rfl,
   hour_normalization_spec.2.1 (rawHourBad (.vStr "noon")) (.vStr "noon") rfl (by decide),
   hour_normalization_spec.2.2.1 (rawHourBad (.vStr "21")) (.vStr "21") 21 rfl (by decide)⟩

/-- C8 counterexample to the claim as stated: the hour field of a record
whose hour is present but unparseable normalizes to 0, not to the
documented default 12, because `_normalize_row` calls `_i` without
passing 12 as the parse-failure default. -/
theorem hour_default_counterexample :
    intOfVal (.vStr "noon") = none ∧
    (_normalize_row (rawHourBad (.vStr "noon"))).hour = 0 ∧
    (_normalize_row (rawHourBad (.vStr "noon"))).hour ≠ 12 :=
  ⟨by decide, by decide, by decide⟩

theorem preScore_amount (v : NormRow) (cfg : Config) (a : ℚ) :
    preScore { v with amount := a } cfg =
      catDelta v.ip_risk cfg.score_weights.ip_risk +
      catDelta v.email_risk cfg.score_weights.email_risk +
      catDelta v.device_risk cfg.score_weights.device_fingerprint_risk +
      repDelta v cfg.score_weights + nightDelta v cfg.score_weights +
      geoDelta v cfg.score_weights + amtDelta { v with amount := a } cfg + latDelta v cfg :=
  rfl

/-- C9 (amended): for a record with reputation different from `"new"`
that does not hard-block, raising `amount_mxn` from strictly below the
product type's threshold to at or above it (inclusive, with the
`"_default"` fallback), all else fixed, adds exactly the configured
`high_amount` weight to the risk score — provided the frequency buffer's
applicability is unchanged by the bump (it applies in both evaluations or
in neither); when crossing the threshold flips the buffer on, the
observed increase is one point smaller, see the counterexample. -/
theorem high_amount_monotone (v : NormRow) (cfg : Config) (a1 a2 : ℚ)
    (hrep : v.rep ≠ "new")
    (h1 : a1 < thresholdFor cfg v.ptype)
    (h2 : thresholdFor cfg v.ptype ≤ a2)
    (hhb : hardBlockCond v cfg = false)
    (hbuf : bufApplies { v with amount := a1 } cfg ↔ bufApplies { v with amount := a2 } cfg) :
    (assessNorm { v with amount := a2 } cfg).risk_score =
      (assessNorm { v with amount := a1 } cfg).risk_score + cfg.score_weights.high_amount := by
  have hb1 : hardBlockCond { v with amount := a1 } cfg = false := hhb
  have hb2 : hardBlockCond { v with amount := a2 } cfg = false := hhb
  rw [assessNorm_of_not_hard _ _ hb2, assessNorm_of_not_hard _ _ hb1]
  show (runRulesCtx { v with amount := a2 } cfg).score =
    (runRulesCtx { v with amount := a1 } cfg).score + cfg.score_weights.high_amount
  rw [runRulesCtx_spec, runRulesCtx_spec]
  have hc1 : ¬ (high_amount a1 v.ptype cfg = true) := by
    simp only [high_amount, decide_eq_true_eq, not_le]
    exact h1
  have hc2 : high_amount a2 v.ptype cfg = true := by
    simp only [high_amount, decide_eq_true_eq]
    exact h2
  have e1 : amtDelta { v with amount := a1 } cfg = 0 := by
    unfold amtDelta
    rw [if_neg hc1]
  have e2 : amtDelta { v with amount := a2 } cfg = cfg.score_weights.high_amount := by
    unfold amtDelta
    rw [if_pos hc2, if_neg hrep]
    ring
  have hpre : preScore { v with amount := a2 } cfg =
      preScore { v with amount := a1 } cfg + cfg.score_weights.high_amount := by
    rw [preScore_amount v cfg a2, preScore_amount v cfg a1, e1, e2]
    ring
  by_cases hA : bufApplies { v with amount := a1 } cfg
  · rw [if_pos (hbuf.mp hA), if_pos hA]
    show preScore { v with amount := a2 } cfg - 1 =
      preScore { v with amount := a1 } cfg - 1 + cfg.score_weights.high_amount
    omega
  · rw [if_neg (fun h => hA (hbuf.mpr h)), if_neg hA]
    exact hpre

theorem high_amount_monotone_witness :
    vC9r.rep ≠ "new" ∧
    (100 : ℚ) < thresholdFor DEFAULT_CONFIG vC9r.ptype ∧
    thresholdFor DEFAULT_CONFIG vC9r.ptype ≤ 2500 ∧
    hardBlockCond vC9r DEFAULT_CONFIG = false ∧
    (bufApplies { vC9r with amount := (100 : ℚ) } DEFAULT_CONFIG ↔
      bufApplies { vC9r with amount := (2500 : ℚ) } DEFAULT_CONFIG) ∧
    (assessNorm { vC9r with amount := (2500 : ℚ) } DEFAULT_CONFIG).risk_score =
      (assessNorm { vC9r with amount := (100 : ℚ) } DEFAULT_CONFIG).risk_score +
        DEFAULT_CONFIG.score_weights.high_amount :=
  ⟨by decide, by decide, by decide, by decide, by decide,
   high_amount_monotone vC9r DEFAULT_CONFIG 100 2500 (by decide) (by decide) (by decide)
     (by decide) (by decide)⟩

/-- C9 counterexample to the claim as stated: a trusted, frequent user
with one medium categorical signal satisfies every premise of the claim
(reputation not `"new"`, amounts straddling the threshold, all else
fixed), yet crossing the threshold raises the risk score by only 1, not
by the configured high-amount weight 2, because the now-positive
pre-buffer score switches the frequency buffer on. -/
theorem high_amount_monotonicity_counterexample :
    vC9.rep ≠ "new" ∧
    (100 : ℚ) < thresholdFor DEFAULT_CONFIG vC9.ptype ∧
    thresholdFor DEFAULT_CONFIG vC9.ptype ≤ 2500 ∧
    hardBlockCond vC9 DEFAULT_CONFIG = false ∧
    (assessNorm { vC9 with amount := (2500 : ℚ) } DEFAULT_CONFIG).risk_score ≠
      (assessNorm { vC9 with amount := (100 : ℚ) } DEFAULT_CONFIG).risk_score +
        DEFAULT_CONFIG.score_weights.high_amount :=
  ⟨by decide, by decide, by decide, by decide, by decide⟩

/-- C10: on every evaluation that does not hard-block (default
configuration), the returned risk score equals the sum of the signed
point deltas embedded in the returned reason tokens, and the returned
reason string is exactly those tokens joined by `";"` — the audit trail
fully accounts for the score. -/
theorem score_accounting (v : NormRow) (h : hardBlockCond v DEFAULT_CONFIG = false) :
    (assessNorm v DEFAULT_CONFIG).risk_score =
      (((runRulesCtx v DEFAULT_CONFIG).reasons).map tokenDelta).sum ∧
    (assessNorm v DEFAULT_CONFIG).reasons =
      String.intercalate ";" ((runRulesCtx v DEFAULT_CONFIG).reasons) := by
  rw [assessNorm_of_not_hard _ _ h]
  refine ⟨?_, rfl⟩
  show (runRulesCtx v DEFAULT_CONFIG).score =
    (((runRulesCtx v DEFAULT_CONFIG).reasons).map tokenDelta).sum
  rw [runRulesCtx_spec]
  by_cases hb : bufApplies v DEFAULT_CONFIG
  · rw [if_pos hb]
    show preScore v DEFAULT_CONFIG - 1 =
      ((preToks v DEFAULT_CONFIG ++ ["frequency_buffer(-1)"]).map tokenDelta).sum
    rw [List.map_append, List.sum_append, sum_preToks_default]
    have hd : (["frequency_buffer(-1)"].map tokenDelta).sum = -1 := by decide
    rw [hd]
    omega
  · rw [if_neg hb]
    exact (sum_preToks_default v).symm

theorem score_accounting_witness :
    hardBlockCond vScenario DEFAULT_CONFIG = false ∧
    (assessNorm vScenario DEFAULT_CONFIG).risk_score =
      (((runRulesCtx vScenario DEFAULT_CONFIG).reasons).map tokenDelta).sum :=
  ⟨by decide, (score_accounting vScenario (by decide)).1⟩

end DecisionEngine
